import Mathlib

/-!
Verification of the nestorbot message-routing core.

The development embeds the repository in two layers:
  * `Response` delivery (`src/response.js`) is translated directly from the
    source: the debug branch buffers strings on the robot, the production
    branch builds one POST request and compares the status code with 202.
    The blocking HTTP transport is an external collaborator and is passed
    in as an oracle from requests to status codes; a transport-level
    failure surfaces as a non-202 status in this model.
  * The dispatcher (`hear`, `respond`, `respondPattern`, `receive`) lives
    in a file of the repository that is not available, so it is modelled
    from the specification, with doc comments marking each such
    definition.

Patterns are modelled by a small regular-expression language with
backtracking, greedy-first semantics matching the JavaScript engine on the
constructs the code uses: literals, the dot and whitespace classes, greedy
star over a class, alternation, sequencing and capturing groups.
-/

namespace Nestor

/-- Character classes appearing in the patterns of the code and the
addressed-pattern construction: the dot (any character), whitespace, and a
single literal character. -/
inductive CClass where
  | dot : CClass
  | space : CClass
  | lit : Char → CClass
deriving DecidableEq, Repr

/-- Whether a character belongs to a class. -/
def CClass.matches : CClass → Char → Bool
  | .dot, _ => true
  | .space, c => c = ' ' || c = '\t' || c = '\n' || c = '\r'
  | .lit d, c => c = d

/-- Regular expressions over character classes: empty word, one class,
sequencing, alternation, greedy star over a class, and a capturing
group. -/
inductive Rx where
  | eps : Rx
  | cc : CClass → Rx
  | seq : Rx → Rx → Rx
  | alt : Rx → Rx → Rx
  | star : CClass → Rx
  | grp : Rx → Rx
deriving DecidableEq, Repr

/-- All suffixes reachable by letting a greedy star over class `k` consume
a prefix of the input, longest consumption first (the JavaScript
backtracking order). -/
def starSuffixes (k : CClass) : List Char → List (List Char)
  | [] => [[]]
  | c :: cs =>
    if k.matches c then starSuffixes k cs ++ [c :: cs] else [c :: cs]

/-- Backtracking matcher: all ways a pattern can match a prefix of the
input, in the priority order of a JavaScript regular expression (greedy
star, left alternative first).  Each result is the remaining suffix
together with the list of captured groups in group-number order. -/
def Rx.run : Rx → List Char → List (List Char × List (List Char))
  | .eps, s => [(s, [])]
  | .cc _, [] => []
  | .cc k, c :: cs => if k.matches c then [(cs, [])] else []
  | .seq a b, s =>
    (a.run s).flatMap fun p =>
      (b.run p.1).map fun q => (q.1, p.2 ++ q.2)
  | .alt a b, s => a.run s ++ b.run s
  | .star k, s => (starSuffixes k s).map fun s2 => (s2, [])
  | .grp r, s =>
    (r.run s).map fun p => (p.1, (s.take (s.length - p.1.length)) :: p.2)

/-- Searching from every start position in turn (an unanchored JavaScript
match): the captures of the first position at which the pattern
matches. -/
def searchFrom (r : Rx) : List Char → Option (List (List Char))
  | [] => ((r.run []).head?).map Prod.snd
  | c :: cs =>
    match (r.run (c :: cs)).head? with
    | some p => some p.2
    | none => searchFrom r cs

/-- A pattern as registered with the robot: an expression plus an anchoring
flag (the addressed patterns produced by `respondPattern` begin with a
caret and only match at the start of the text). -/
structure Pattern where
  anchored : Bool
  rx : Rx
deriving DecidableEq, Repr

/-- The capture lists of the first match of a pattern against a string, or
`none` when the pattern does not match. -/
def Pattern.firstMatch (p : Pattern) (s : String) : Option (List (List Char)) :=
  if p.anchored then ((p.rx.run s.data).head?).map Prod.snd
  else searchFrom p.rx s.data

/-- Whether a pattern matches a string (the JavaScript `test`). -/
def Pattern.test (p : Pattern) (s : String) : Bool :=
  (p.firstMatch s).isSome

/-- Group 1 of the first match, as a string. -/
def Pattern.group1 (p : Pattern) (s : String) : Option String :=
  match p.firstMatch s with
  | some (g :: _) => some (String.mk g)
  | _ => none

/-- The pattern matching exactly the characters of a string. -/
def litStr (s : String) : Rx :=
  s.data.foldr (fun c r => Rx.seq (Rx.cc (CClass.lit c)) r) Rx.eps

/-- The literal pattern over a character list, the recursive form of
`litStr` used by the lemmas. -/
def litRx : List Char → Rx
  | [] => Rx.eps
  | c :: cs => Rx.seq (Rx.cc (CClass.lit c)) (litRx cs)

/-- An unanchored literal pattern such as the `/message123/` of the test
suite. -/
def hearPat (s : String) : Pattern :=
  { anchored := false, rx := litStr s }

/-- The capture-all content pattern `/(.*)/` of the test suite. -/
def capAll : Pattern :=
  { anchored := false, rx := Rx.grp (Rx.star CClass.dot) }

/-- A user as carried on messages: only the identifier is read by the
delivery code (`this.message.user.id`). -/
structure User where
  id : String
deriving DecidableEq, Repr

/-- A message: an optional user, an optional room, the raw text and the
finished flag. -/
structure Message where
  user : Option User
  room : Option String
  text : String
  finished : Bool
deriving DecidableEq, Repr

/-- A callback registered with a listener, described by its observable
behaviour: a synchronous callback (arity one) performs its send calls and
returns; a callback declaring a completion parameter (arity two) performs
its send calls, possibly after asynchronous work, and then invokes the
completion parameter.  Each listed string is one send call. -/
inductive Callback where
  | sync : List String → Callback
  | asyncCb : List String → Callback
deriving DecidableEq, Repr

/-- The strings a callback sends, in order. -/
def Callback.sends : Callback → List String
  | .sync ss => ss
  | .asyncCb ss => ss

/-- A listener: a pattern paired with a callback. -/
structure Listener where
  pattern : Pattern
  callback : Callback
deriving DecidableEq, Repr

/-- The robot state: identity, debug flag, outbound debug buffers and the
ordered listener list. -/
structure Robot where
  teamId : String
  botId : String
  debugMode : Bool
  toSend : List String
  toReply : List String
  listeners : List Listener
deriving DecidableEq, Repr

/-- The process environment read by the delivery code:
`__NESTOR_AUTH_TOKEN` and `__NESTOR_API_HOST`. -/
structure NetEnv where
  authToken : Option String
  apiHost : Option String
deriving DecidableEq, Repr

/-- The form-encoded `message` object the delivery code posts:
`user_uid`, `channel_uid`, the JSON-encoded string array, and the reply
flag. -/
structure FormBody where
  user_uid : String
  channel_uid : String
  strings : String
  reply : Bool
deriving DecidableEq, Repr

/-- An outbound HTTP request as issued by the delivery code. -/
structure HttpRequest where
  method : String
  url : String
  authHeader : Option String
  body : FormBody
deriving DecidableEq, Repr

/-- JSON string escaping for the characters `JSON.stringify` escapes in
the strings this development evaluates. -/
def jsonEscape (c : Char) : String :=
  if c = '"' then "\\\""
  else if c = '\\' then "\\\\"
  else if c = '\n' then "\\n"
  else if c = '\t' then "\\t"
  else if c = '\r' then "\\r"
  else String.mk [c]

/-- `JSON.stringify` on an array of strings, preserving order. -/
def jsonStringify (xs : List String) : String :=
  "[" ++ String.intercalate ","
    (xs.map fun s => "\"" ++ String.join (s.data.map jsonEscape) ++ "\"") ++ "]"

/-- The body of `Response.prototype.__send` from `src/response.js`, acting
on the robot: in debug mode the strings are appended to `toReply` or
`toSend` and the call returns `true`; otherwise the URL is built from
`__NESTOR_API_HOST` (default `https://v2.asknestor.me`) and the team id,
the call returns `false` when the user or the room is missing or no
strings were supplied, and otherwise issues exactly one POST carrying the
form-encoded message object and returns whether the status code is 202.
The transport oracle `net` maps the request to the status code of the
response.  The result also lists the requests issued, for the
no-network-call properties. -/
def sendCore (env : NetEnv) (net : HttpRequest → Nat) (r : Robot)
    (m : Message) (strings : List String) (reply : Bool) :
    Bool × Robot × List HttpRequest :=
  if r.debugMode then
    if reply then (true, { r with toReply := r.toReply ++ strings }, [])
    else (true, { r with toSend := r.toSend ++ strings }, [])
  else
    let host := env.apiHost.getD "https://v2.asknestor.me"
    let url := host ++ "/teams/" ++ r.teamId ++ "/messages"
    match m.user, m.room, strings with
    | some u, some room, s :: rest =>
      let req : HttpRequest :=
        { method := "POST"
          url := url
          authHeader := env.authToken
          body :=
            { user_uid := u.id
              channel_uid := room
              strings := jsonStringify (s :: rest)
              reply := reply } }
      (net req == 202, r, [req])
    | _, _, _ => (false, r, [])

/-- The remote relay POST of §6 of the specification, as statement
vocabulary: POST to `<host or default>/teams/<teamId>/messages` with the
`Authorization` header set to the auth token and the form-encoded message
object carrying `user_uid`, `channel_uid`, the JSON-encoded string array
and the reply flag. -/
def relayRequest (env : NetEnv) (r : Robot) (u : User) (room : String)
    (strings : List String) (reply : Bool) : HttpRequest :=
  { method := "POST"
    url := env.apiHost.getD "https://v2.asknestor.me" ++ "/teams/" ++
      r.teamId ++ "/messages"
    authHeader := env.authToken
    body :=
      { user_uid := u.id
        channel_uid := room
        strings := jsonStringify strings
        reply := reply } }

/-- A response object: the robot, the message and the match captures, as
passed to `new Response(robot, message, match)`. -/
structure Response where
  robot : Robot
  message : Message
  mtch : List String
deriving DecidableEq, Repr

/-- `Response.prototype.__send`: delegates to `sendCore` and carries the
updated robot back into the response. -/
def Response.__send (env : NetEnv) (net : HttpRequest → Nat)
    (resp : Response) (strings : List String) (reply : Bool) :
    Bool × Response × List HttpRequest :=
  let out := sendCore env net resp.robot resp.message strings reply
  (out.1, { resp with robot := out.2.1 }, out.2.2)

/-- `Response.prototype.send`: the argument strings with the reply flag
false. -/
def Response.send (env : NetEnv) (net : HttpRequest → Nat)
    (resp : Response) (strings : List String) :
    Bool × Response × List HttpRequest :=
  Response.__send env net resp strings false

/-- `Response.prototype.reply`: the argument strings with the reply flag
true. -/
def Response.reply (env : NetEnv) (net : HttpRequest → Nat)
    (resp : Response) (strings : List String) :
    Bool × Response × List HttpRequest :=
  Response.__send env net resp strings true

/-- Modelled from the spec: the addressed-pattern construction
`Robot.prototype.respondPattern`, whose source file is not available.  The
produced pattern is anchored at the start of the text and accepts either
of the two addressed forms before the content pattern: the literal bot
identifier followed by optional whitespace separators, or the
mention-style wrapper `<@botId|displayName>:` followed by optional
whitespace.  The bot identifier is embedded as literal characters (the
escaping the spec requires), the wrapper contains no capturing group, and
the content pattern keeps its capturing group positions. -/
def respondPattern (p : Pattern) (botId : String) : Pattern :=
  let direct := Rx.seq (litStr botId) (Rx.star CClass.space)
  let mention :=
    Rx.seq (litStr "<@")
      (Rx.seq (litStr botId)
        (Rx.seq (litStr "|")
          (Rx.seq (Rx.star CClass.dot)
            (Rx.seq (litStr ">:") (Rx.star CClass.space)))))
  { anchored := true, rx := Rx.seq (Rx.alt direct mention) p.rx }

/-- Modelled from the spec: `Robot.prototype.hear` appends one listener
whose pattern is tested against the raw message text. -/
def Robot.hear (r : Robot) (p : Pattern) (cb : Callback) : Robot :=
  { r with listeners := r.listeners ++ [{ pattern := p, callback := cb }] }

/-- Modelled from the spec: `Robot.prototype.respond` appends one listener
whose pattern is the caller pattern wrapped through the addressed-pattern
construction. -/
def Robot.respond (r : Robot) (p : Pattern) (cb : Callback) : Robot :=
  { r with listeners :=
      r.listeners ++ [{ pattern := respondPattern p r.botId, callback := cb }] }

/-- Events observable during one receive cycle: a listener callback being
invoked (by its zero-based registration index), the callback calling send
with one string (in debug mode this is the string appended to the debug
send buffer), the callback invoking its completion parameter, and
the dispatcher firing the completion callback passed to `receive`. -/
inductive Event where
  | invoke : Nat → Event
  | sendCall : String → Event
  | signalComplete : Event
  | onComplete : Event
deriving DecidableEq, Repr

/-- The listener indices whose callbacks were invoked in a trace. -/
def invoked (evs : List Event) : List Nat :=
  evs.filterMap fun e =>
    match e with
    | Event.invoke i => some i
    | _ => none

/-- Modelled from the spec: a callback performs its send calls in order,
each one string per call, through the delivery primitive. -/
def runSends (env : NetEnv) (net : HttpRequest → Nat) (m : Message) :
    Robot → List String → Robot × List Event × List HttpRequest
  | r, [] => (r, [], [])
  | r, s :: rest =>
    let out := sendCore env net r m [s] false
    let next := runSends env net m out.2.1 rest
    (next.1, Event.sendCall s :: next.2.1, out.2.2 ++ next.2.2)

/-- Modelled from the spec: running the callback of the listener at index
`i`.  A synchronous callback returns after its sends, which the dispatcher
treats as completion; a callback with a completion parameter performs its
sends and then invokes that parameter, producing the completion-signal
event after its sends. -/
def runCb (env : NetEnv) (net : HttpRequest → Nat) (i : Nat)
    (cb : Callback) (m : Message) (r : Robot) :
    Robot × List Event × List HttpRequest :=
  match cb with
  | .sync ss =>
    let out := runSends env net m r ss
    (out.1, Event.invoke i :: out.2.1, out.2.2)
  | .asyncCb ss =>
    let out := runSends env net m r ss
    (out.1, Event.invoke i :: (out.2.1 ++ [Event.signalComplete]), out.2.2)

/-- Modelled from the spec: the dispatch loop of `receive` walks the
listener list in registration order, fires the first listener whose
pattern matches the message text and then invokes the completion callback
passed to `receive`; when no listener matches, the completion callback is
invoked immediately with no side effects. -/
def dispatch (env : NetEnv) (net : HttpRequest → Nat) (m : Message) :
    List Listener → Nat → Robot → Robot × List Event × List HttpRequest
  | [], _, r => (r, [Event.onComplete], [])
  | l :: ls, i, r =>
    if Pattern.test l.pattern m.text then
      let out := runCb env net i l.callback m r
      (out.1, out.2.1 ++ [Event.onComplete], out.2.2)
    else dispatch env net m ls (i + 1) r

/-- Modelled from the spec: `Robot.prototype.receive` evaluates the
listeners in registration order starting at index zero. -/
def Robot.receive (env : NetEnv) (net : HttpRequest → Nat) (r : Robot)
    (m : Message) : Robot × List Event × List HttpRequest :=
  dispatch env net m r.listeners 0 r

/-! ### Helper lemmas about the delivery primitive -/

theorem sendCore_frame (env : NetEnv) (net : HttpRequest → Nat) (r : Robot)
    (m : Message) (strings : List String) (reply : Bool) :
    ((sendCore env net r m strings reply).2.1).listeners = r.listeners ∧
    ((sendCore env net r m strings reply).2.1).teamId = r.teamId ∧
    ((sendCore env net r m strings reply).2.1).botId = r.botId ∧
    ((sendCore env net r m strings reply).2.1).debugMode = r.debugMode := by
  unfold sendCore
  cases hd : r.debugMode
  · simp only [hd, Bool.false_eq_true, if_false]
    cases m.user <;> cases m.room <;> cases strings <;> simp [hd]
  · simp only [hd, if_true]
    cases reply <;> simp [hd]

theorem sendCore_debug_send (env : NetEnv) (net : HttpRequest → Nat)
    (r : Robot) (m : Message) (strings : List String)
    (h : r.debugMode = true) :
    sendCore env net r m strings false =
      (true, { r with toSend := r.toSend ++ strings }, []) := by
  simp [sendCore, h]

theorem sendCore_debug_reply (env : NetEnv) (net : HttpRequest → Nat)
    (r : Robot) (m : Message) (strings : List String)
    (h : r.debugMode = true) :
    sendCore env net r m strings true =
      (true, { r with toReply := r.toReply ++ strings }, []) := by
  simp [sendCore, h]

/-! ### Helper lemmas about the dispatch pipeline -/

theorem runSends_debug (env : NetEnv) (net : HttpRequest → Nat)
    (m : Message) :
    ∀ (ss : List String) (r : Robot), r.debugMode = true →
    runSends env net m r ss =
      ({ r with toSend := r.toSend ++ ss }, ss.map Event.sendCall, []) := by
  intro ss
  induction ss with
  | nil => intro r _; simp [runSends]
  | cons s rest ih =>
    intro r h
    rw [runSends, sendCore_debug_send env net r m [s] h]
    rw [ih { r with toSend := r.toSend ++ [s] } h]
    simp

theorem runSends_events (env : NetEnv) (net : HttpRequest → Nat)
    (m : Message) :
    ∀ (ss : List String) (r : Robot),
    (runSends env net m r ss).2.1 = ss.map Event.sendCall := by
  intro ss
  induction ss with
  | nil => intro r; simp [runSends]
  | cons s rest ih => intro r; simp [runSends, ih]

theorem runSends_listeners (env : NetEnv) (net : HttpRequest → Nat)
    (m : Message) :
    ∀ (ss : List String) (r : Robot),
    ((runSends env net m r ss).1).listeners = r.listeners := by
  intro ss
  induction ss with
  | nil => intro r; simp [runSends]
  | cons s rest ih =>
    intro r
    rw [runSends]
    rw [ih]
    exact (sendCore_frame env net r m [s] false).1

theorem runCb_listeners (env : NetEnv) (net : HttpRequest → Nat) (i : Nat)
    (cb : Callback) (m : Message) (r : Robot) :
    ((runCb env net i cb m r).1).listeners = r.listeners := by
  cases cb <;> simp [runCb, runSends_listeners]

theorem dispatch_listeners (env : NetEnv) (net : HttpRequest → Nat)
    (m : Message) :
    ∀ (ls : List Listener) (i : Nat) (r : Robot),
    ((dispatch env net m ls i r).1).listeners = r.listeners := by
  intro ls
  induction ls with
  | nil => intro i r; simp [dispatch]
  | cons l rest ih =>
    intro i r
    rw [dispatch]
    by_cases hm : Pattern.test l.pattern m.text
    · simp [hm, runCb_listeners]
    · simp [hm, ih]

theorem dispatch_skip (env : NetEnv) (net : HttpRequest → Nat) (m : Message)
    (pre rest : List Listener) (i : Nat) (r : Robot)
    (h : ∀ l ∈ pre, Pattern.test l.pattern m.text = false) :
    dispatch env net m (pre ++ rest) i r =
      dispatch env net m rest (i + pre.length) r := by
  induction pre generalizing i with
  | nil => simp
  | cons l pre ih =>
    have hl : Pattern.test l.pattern m.text = false := h l (by simp)
    rw [List.cons_append, dispatch]
    simp only [hl, Bool.false_eq_true, if_false]
    rw [ih (i + 1) (fun p hp => h p (List.mem_cons_of_mem l hp))]
    have harith : i + 1 + pre.length = i + (pre.length + 1) := by omega
    rw [harith]
    rfl

theorem receive_first (env : NetEnv) (net : HttpRequest → Nat) (r : Robot)
    (m : Message) (pre : List Listener) (l : Listener) (post : List Listener)
    (hl : r.listeners = pre ++ l :: post)
    (hpre : ∀ p ∈ pre, Pattern.test p.pattern m.text = false)
    (hmatch : Pattern.test l.pattern m.text = true) :
    Robot.receive env net r m =
      ((runCb env net pre.length l.callback m r).1,
       (runCb env net pre.length l.callback m r).2.1 ++ [Event.onComplete],
       (runCb env net pre.length l.callback m r).2.2) := by
  unfold Robot.receive
  rw [hl, dispatch_skip env net m pre (l :: post) 0 r hpre]
  rw [dispatch]
  simp [hmatch]

theorem invoked_append (a b : List Event) :
    invoked (a ++ b) = invoked a ++ invoked b := by
  simp [invoked]

theorem invoked_sendCalls (ss : List String) :
    invoked (ss.map Event.sendCall) = [] := by
  induction ss with
  | nil => simp [invoked]
  | cons s rest ih => simp [invoked] at ih ⊢

theorem runCb_invoked (env : NetEnv) (net : HttpRequest → Nat) (i : Nat)
    (cb : Callback) (m : Message) (r : Robot) :
    invoked ((runCb env net i cb m r).2.1) = [i] := by
  cases cb <;>
    simp [runCb, invoked, runSends_events, invoked_sendCalls,
      List.filterMap_append, List.filterMap_map]

theorem runCb_debug (env : NetEnv) (net : HttpRequest → Nat) (i : Nat)
    (cb : Callback) (m : Message) (r : Robot) (h : r.debugMode = true) :
    (runCb env net i cb m r).1 =
      { r with toSend := r.toSend ++ cb.sends } := by
  cases cb <;> simp [runCb, Callback.sends, runSends_debug env net m _ r h]

/-! ### Helper lemmas about the pattern language -/

theorem String_data_append (s t : String) : (s ++ t).data = s.data ++ t.data :=
  rfl

theorem litStr_eq_litRx (s : String) : litStr s = litRx s.data := by
  unfold litStr
  induction s.data with
  | nil => rfl
  | cons c cs ih => rw [List.foldr_cons, ih]; rfl

theorem litRx_run (b : List Char) : ∀ s : List Char,
    (litRx b).run s =
      if b.isPrefixOf s then [(s.drop b.length, [])] else [] := by
  induction b with
  | nil => intro s; simp [litRx, Rx.run, List.isPrefixOf]
  | cons c cs ih =>
    intro s
    cases s with
    | nil => simp [litRx, Rx.run, List.isPrefixOf]
    | cons d ds =>
      by_cases hcd : d = c
      · subst hcd
        simp [litRx, Rx.run, CClass.matches, List.isPrefixOf, ih ds]
      · simp [litRx, Rx.run, CClass.matches, List.isPrefixOf, hcd, Ne.symm hcd]

theorem isPrefixOf_append (b t : List Char) : b.isPrefixOf (b ++ t) = true := by
  induction b with
  | nil => simp [List.isPrefixOf]
  | cons c cs ih => simp [List.isPrefixOf, ih]

theorem litRx_run_append (b t : List Char) :
    (litRx b).run (b ++ t) = [(t, [])] := by
  rw [litRx_run, isPrefixOf_append]
  simp

theorem starSuffixes_dot_head (s : List Char) :
    ∃ rest, starSuffixes CClass.dot s = [] :: rest := by
  induction s with
  | nil => exact ⟨[], rfl⟩
  | cons c cs ih =>
    obtain ⟨rest, hr⟩ := ih
    exact ⟨rest ++ [c :: cs], by simp [starSuffixes, CClass.matches, hr]⟩

theorem capAll_run_head (s : List Char) :
    ∃ rest, capAll.rx.run s = (([] : List Char), [s]) :: rest := by
  obtain ⟨rest, hr⟩ := starSuffixes_dot_head s
  refine ⟨rest.map fun s2 => (s2, [s.take (s.length - s2.length)]), ?_⟩
  simp [capAll, Rx.run, hr, List.take_length]

theorem alt_seq_run_head (a b c : Rx) (s : List Char)
    (p q : List Char × List (List Char))
    (ps qs : List (List Char × List (List Char)))
    (ha : a.run s = p :: ps) (hc : c.run p.1 = q :: qs) :
    ((Rx.seq (Rx.alt a b) c).run s).head? = some (q.1, p.2 ++ q.2) := by
  simp only [Rx.run, ha, hc, List.cons_append, List.flatMap_cons, List.map_cons,
    List.cons_append, List.head?_cons]

theorem alt_seq_run_head2 (a b c : Rx) (s : List Char)
    (p q : List Char × List (List Char))
    (ps qs : List (List Char × List (List Char)))
    (ha : a.run s = []) (hb : b.run s = p :: ps) (hc : c.run p.1 = q :: qs) :
    ((Rx.seq (Rx.alt a b) c).run s).head? = some (q.1, p.2 ++ q.2) := by
  simp only [Rx.run, ha, hb, List.nil_append, List.flatMap_cons]
  rw [hc]
  simp only [List.map_cons, List.cons_append, List.head?_cons]

theorem seq_run_single (a b : Rx) (s t : List Char) (ha : a.run s = [(t, [])]) :
    (Rx.seq a b).run s = b.run t := by
  simp only [Rx.run, ha, List.flatMap_cons, List.flatMap_nil, List.append_nil,
    List.nil_append]
  simp

theorem seq_run_nil (a b : Rx) (s : List Char) (ha : a.run s = []) :
    (Rx.seq a b).run s = [] := by
  simp only [Rx.run, ha, List.flatMap_nil]

theorem alt_seq_run_nil (a b c : Rx) (s : List Char)
    (ha : a.run s = []) (hb : b.run s = []) :
    ((Rx.seq (Rx.alt a b) c).run s) = [] := by
  simp only [Rx.run, ha, hb, List.nil_append, List.flatMap_nil]

/-! ### Claims -/

/-- C1: in a receive cycle in debug mode in which at least one registered
listener matches the message text, receive invokes only the callback of
the first-registered matching listener; no later callback runs, and the
buffered output gains exactly the strings that callback sent, in order,
with nothing from any later callback. -/
theorem receive_first_match_only (env : NetEnv) (net : HttpRequest → Nat)
    (r : Robot) (m : Message) (pre : List Listener) (l : Listener)
    (post : List Listener)
    (hl : r.listeners = pre ++ l :: post)
    (hpre : ∀ p ∈ pre, Pattern.test p.pattern m.text = false)
    (hmatch : Pattern.test l.pattern m.text = true)
    (hdbg : r.debugMode = true) :
    invoked (Robot.receive env net r m).2.1 = [pre.length] ∧
    (Robot.receive env net r m).1.toSend = r.toSend ++ l.callback.sends ∧
    (Robot.receive env net r m).1.toReply = r.toReply := by
  rw [receive_first env net r m pre l post hl hpre hmatch]
  refine ⟨?_, ?_, ?_⟩
  · rw [invoked_append, runCb_invoked]
    simp [invoked]
  · rw [runCb_debug env net pre.length l.callback m r hdbg]
  · rw [runCb_debug env net pre.length l.callback m r hdbg]

/-- C1 witness: the two-listener configuration of the test suite, both
matching, only the first firing. -/
theorem receive_first_match_only_witness :
    (let r : Robot :=
      { teamId := "TDEADBEEF", botId := "UNESTORBOT1", debugMode := true,
        toSend := [], toReply := [],
        listeners :=
          [{ pattern := hearPat "message123",
             callback := Callback.sync ["hello 1"] },
           { pattern := hearPat "message123",
             callback := Callback.sync ["hello 2"] }] };
     let m : Message :=
      { user := some { id := "1" }, room := some "CDEADBEEF1",
        text := "message123", finished := false };
     Pattern.test (hearPat "message123") "message123" = true ∧
     (invoked (Robot.receive ⟨none, none⟩ (fun _ => 0) r m).2.1 = [0] ∧
      (Robot.receive ⟨none, none⟩ (fun _ => 0) r m).1.toSend =
        [] ++ ["hello 1"] ∧
      (Robot.receive ⟨none, none⟩ (fun _ => 0) r m).1.toReply = [])) := by
  intro r m
  exact ⟨by decide,
    receive_first_match_only ⟨none, none⟩ (fun _ => 0) r m []
      { pattern := hearPat "message123", callback := Callback.sync ["hello 1"] }
      [{ pattern := hearPat "message123", callback := Callback.sync ["hello 2"] }]
      rfl (by simp) (by decide) rfl⟩

/-- C2 counterexample: the claim quantifies over every pattern and every
bot identifier, but with the capture-all content pattern and the bot
identifier `mess`, which is a prefix of the unaddressed text `message`,
the produced pattern does match the unaddressed `message` alone, so the
claimed conjunction fails at this input. -/
theorem respondPattern_claim_counterexample :
    ¬ (Pattern.group1 (respondPattern capAll "mess") ("mess" ++ " message") =
         some "message" ∧
       Pattern.group1 (respondPattern capAll "mess")
         ("<@" ++ "mess" ++ "|name>: message") = some "message" ∧
       Pattern.test (respondPattern capAll "mess") "message" = false) := by
  decide

/-- C2 (amended): for the capture-all content pattern and every bot
identifier B that is not itself a prefix of the unaddressed text nor of
the mention-form text, the pattern produced by respondPattern matches
`B message` capturing `message` in group 1, matches the mention-style
`<@B|name>: message` capturing `message` in group 1, and does not match
the unaddressed `message` alone. -/
theorem respondPattern_capAll (B : String)
    (h1 : B.data.isPrefixOf (("message").data) = false)
    (h2 : B.data.isPrefixOf
        (("<@").data ++ (B.data ++ ("|name>: message").data)) = false) :
    Pattern.group1 (respondPattern capAll B) (B ++ " message") =
      some "message" ∧
    Pattern.group1 (respondPattern capAll B) ("<@" ++ B ++ "|name>: message") =
      some "message" ∧
    Pattern.test (respondPattern capAll B) "message" = false := by
  set D : Rx := Rx.seq (litRx B.data) (Rx.star CClass.space) with hD
  set T : Rx := Rx.seq (litRx (("|").data)) (Rx.seq (Rx.star CClass.dot)
      (Rx.seq (litRx ((">:").data)) (Rx.star CClass.space))) with hT
  set M : Rx := Rx.seq (litRx (("<@").data)) (Rx.seq (litRx B.data) T) with hM
  have hrx : respondPattern capAll B =
      { anchored := true, rx := Rx.seq (Rx.alt D M) capAll.rx } := by
    rw [hD, hM, hT]
    simp [respondPattern, litStr_eq_litRx]
  obtain ⟨restc, hc⟩ := capAll_run_head (("message").data)
  have hdir1 : D.run (B.data ++ ((" message").data)) =
      [((("message").data), []), (((" message").data), [])] := by
    rw [hD, seq_run_single _ _ _ _ (litRx_run_append B.data ((" message").data))]
    rfl
  have hhead1 := alt_seq_run_head D M capAll.rx (B.data ++ ((" message").data))
      ((("message").data), []) (([] : List Char), [(("message").data)])
      [(((" message").data), [])] restc hdir1 hc
  have hdir2 : D.run (("<@").data ++ (B.data ++ ("|name>: message").data)) = [] := by
    have ha : (litRx B.data).run
        (("<@").data ++ (B.data ++ ("|name>: message").data)) = [] := by
      rw [litRx_run, h2]
      simp
    rw [hD, seq_run_nil _ _ _ ha]
  have htail : T.run (("|name>: message").data) =
      [((("message").data), []), (((" message").data), [])] := by
    rw [hT]
    rfl
  have hmen2 : M.run (("<@").data ++ (B.data ++ ("|name>: message").data)) =
      [((("message").data), []), (((" message").data), [])] := by
    rw [hM,
      seq_run_single _ _ _ _
        (litRx_run_append (("<@").data) (B.data ++ ("|name>: message").data)),
      seq_run_single _ _ _ _ (litRx_run_append B.data (("|name>: message").data)),
      htail]
  have hhead2 := alt_seq_run_head2 D M capAll.rx
      (("<@").data ++ (B.data ++ ("|name>: message").data))
      ((("message").data), []) (([] : List Char), [(("message").data)])
      [(((" message").data), [])] restc hdir2 hmen2 hc
  have hdir3 : D.run (("message").data) = [] := by
    have ha : (litRx B.data).run (("message").data) = [] := by
      rw [litRx_run, h1]
      simp
    rw [hD, seq_run_nil _ _ _ ha]
  have hmen3 : M.run (("message").data) = [] := by
    have ha : (litRx (("<@").data)).run (("message").data) = [] := by
      rw [litRx_run]
      decide
    rw [hM, seq_run_nil _ _ _ ha]
  refine ⟨?_, ?_, ?_⟩
  · simp only [Pattern.group1, Pattern.firstMatch, hrx, String_data_append]
    rw [hhead1]
    rfl
  · have hsplit : (("<@" ++ B ++ "|name>: message").data) =
        ("<@").data ++ (B.data ++ ("|name>: message").data) := by
      simp [String_data_append, List.append_assoc]
    simp only [Pattern.group1, Pattern.firstMatch, hrx, hsplit]
    rw [hhead2]
    rfl
  · simp only [Pattern.test, Pattern.firstMatch, hrx]
    rw [alt_seq_run_nil D M capAll.rx (("message").data) hdir3 hmen3]
    rfl

/-- C2 witness: the amended statement at the bot identifier of the test
suite. -/
theorem respondPattern_capAll_witness :
    (("UNESTORBOT1" : String).data.isPrefixOf (("message").data) = false ∧
     ("UNESTORBOT1" : String).data.isPrefixOf
       (("<@").data ++ (("UNESTORBOT1" : String).data ++
         ("|name>: message").data)) = false) ∧
    (Pattern.group1 (respondPattern capAll "UNESTORBOT1")
        ("UNESTORBOT1" ++ " message") = some "message" ∧
     Pattern.group1 (respondPattern capAll "UNESTORBOT1")
        ("<@" ++ "UNESTORBOT1" ++ "|name>: message") = some "message" ∧
     Pattern.test (respondPattern capAll "UNESTORBOT1") "message" = false) :=
  ⟨⟨by decide, by decide⟩,
   respondPattern_capAll "UNESTORBOT1" (by decide) (by decide)⟩

/-- C3: in production mode, delivery with a user, a room and a non-empty
string list performs exactly one POST to the relay URL with the
authorization token and the form-encoded body carrying user_uid,
channel_uid, the JSON-encoded string array in order and the reply flag,
and returns true exactly when the remote answers status 202; any other
status yields false, not an exception. -/
theorem production_delivery (env : NetEnv) (net : HttpRequest → Nat)
    (resp : Response) (u : User) (room : String) (s : String)
    (rest : List String) (reply : Bool)
    (hdbg : resp.robot.debugMode = false)
    (hu : resp.message.user = some u)
    (hr : resp.message.room = some room) :
    Response.__send env net resp (s :: rest) reply =
      ((net (relayRequest env resp.robot u room (s :: rest) reply) == 202 : Bool),
        resp, [relayRequest env resp.robot u room (s :: rest) reply]) ∧
    ((Response.__send env net resp (s :: rest) reply).1 = true ↔
      net (relayRequest env resp.robot u room (s :: rest) reply) = 202) := by
  constructor
  · simp [Response.__send, sendCore, hdbg, hu, hr, relayRequest]
  · simp [Response.__send, sendCore, hdbg, hu, hr, relayRequest]

/-- C3 witness: a concrete production delivery against a transport oracle
answering 202. -/
theorem production_delivery_witness :
    (let resp : Response :=
      { robot := { teamId := "TDEADBEEF", botId := "UNESTORBOT1",
                   debugMode := false, toSend := [], toReply := [],
                   listeners := [] },
        message := { user := some { id := "1" }, room := some "CDEADBEEF1",
                     text := "message123", finished := false },
        mtch := [] };
     resp.robot.debugMode = false ∧
     resp.message.user = some { id := "1" } ∧
     resp.message.room = some "CDEADBEEF1" ∧
     (Response.__send ⟨some "token", none⟩ (fun _ => 202) resp ["hello 1"] false
        = ((202 == 202 : Bool), resp,
           [relayRequest ⟨some "token", none⟩ resp.robot { id := "1" }
             "CDEADBEEF1" ["hello 1"] false]) ∧
      ((Response.__send ⟨some "token", none⟩ (fun _ => 202) resp
          ["hello 1"] false).1 = true ↔ (202 : Nat) = 202))) := by
  intro resp
  exact ⟨rfl, rfl, rfl,
    production_delivery ⟨some "token", none⟩ (fun _ => 202) resp { id := "1" }
      "CDEADBEEF1" "hello 1" [] false rfl rfl rfl⟩

/-- C4: in debug mode send appends its strings in order to toSend, reply
appends its strings in order to toReply, the call returns true and no
request is issued. -/
theorem debug_send_reply (env : NetEnv) (net : HttpRequest → Nat)
    (resp : Response) (strings : List String)
    (h : resp.robot.debugMode = true) :
    Response.send env net resp strings =
      (true, { resp with robot :=
        { resp.robot with toSend := resp.robot.toSend ++ strings } }, []) ∧
    Response.reply env net resp strings =
      (true, { resp with robot :=
        { resp.robot with toReply := resp.robot.toReply ++ strings } }, []) := by
  constructor <;>
    simp [Response.send, Response.reply, Response.__send, sendCore, h]

/-- C4 witness: a concrete debug-mode send and reply. -/
theorem debug_send_reply_witness :
    (let resp : Response :=
      { robot := { teamId := "TDEADBEEF", botId := "UNESTORBOT1",
                   debugMode := true, toSend := ["old"], toReply := [],
                   listeners := [] },
        message := { user := none, room := none, text := "message123",
                     finished := false },
        mtch := [] };
     resp.robot.debugMode = true ∧
     (Response.send ⟨none, none⟩ (fun _ => 0) resp ["hello 1", "hello 2"] =
        (true, { resp with robot := { resp.robot with
          toSend := resp.robot.toSend ++ ["hello 1", "hello 2"] } }, []) ∧
      Response.reply ⟨none, none⟩ (fun _ => 0) resp ["hello 1", "hello 2"] =
        (true, { resp with robot := { resp.robot with
          toReply := resp.robot.toReply ++ ["hello 1", "hello 2"] } }, []))) := by
  intro resp
  exact ⟨rfl,
    debug_send_reply ⟨none, none⟩ (fun _ => 0) resp ["hello 1", "hello 2"] rfl⟩

/-- C5: in production mode, a missing user, a missing room or an empty
string list makes delivery return false with no request issued; the check
precedes any network call. -/
theorem production_precondition_failure (env : NetEnv)
    (net : HttpRequest → Nat) (resp : Response) (strings : List String)
    (reply : Bool)
    (hdbg : resp.robot.debugMode = false)
    (h : resp.message.user = none ∨ resp.message.room = none ∨ strings = []) :
    Response.__send env net resp strings reply = (false, resp, []) := by
  have hcore : sendCore env net resp.robot resp.message strings reply =
      (false, resp.robot, []) := by
    rcases h with h | h | h
    · simp [sendCore, hdbg, h]
    · rcases hu : resp.message.user with _ | u <;>
        simp [sendCore, hdbg, h, hu]
    · subst h
      rcases hu : resp.message.user with _ | u <;>
        rcases hr : resp.message.room with _ | room <;>
          simp [sendCore, hdbg, hu, hr]
  simp [Response.__send, hcore]

/-- C5 witness: production delivery with a missing user returns false and
issues no request. -/
theorem production_precondition_failure_witness :
    (let resp : Response :=
      { robot := { teamId := "TDEADBEEF", botId := "UNESTORBOT1",
                   debugMode := false, toSend := [], toReply := [],
                   listeners := [] },
        message := { user := none, room := some "CDEADBEEF1",
                     text := "message123", finished := false },
        mtch := [] };
     resp.robot.debugMode = false ∧
     (resp.message.user = none ∨ resp.message.room = none ∨
       (["hello 1"] : List String) = []) ∧
     Response.__send ⟨some "token", none⟩ (fun _ => 202) resp ["hello 1"] false =
       (false, resp, [])) := by
  intro resp
  exact ⟨rfl, Or.inl rfl,
    production_precondition_failure ⟨some "token", none⟩ (fun _ => 202) resp
      ["hello 1"] false rfl (Or.inl rfl)⟩

/-- C6: when the first matching listener callback declares a completion
parameter, the completion callback of receive fires only after the
callback has invoked that parameter: the trace places the
completion-signal event strictly before the receive-completion event, and
the strings the callback buffered before signaling are present in the
debug send buffer in the final state. -/
theorem receive_async_defers_completion (env : NetEnv)
    (net : HttpRequest → Nat) (r : Robot) (m : Message)
    (pre : List Listener) (l : Listener) (post : List Listener)
    (ss : List String)
    (hl : r.listeners = pre ++ l :: post)
    (hpre : ∀ p ∈ pre, Pattern.test p.pattern m.text = false)
    (hmatch : Pattern.test l.pattern m.text = true)
    (hcb : l.callback = Callback.asyncCb ss)
    (hdbg : r.debugMode = true) :
    (Robot.receive env net r m).2.1 =
      (Event.invoke pre.length :: ss.map Event.sendCall)
        ++ [Event.signalComplete] ++ [Event.onComplete] ∧
    (Robot.receive env net r m).1.toSend = r.toSend ++ ss := by
  rw [receive_first env net r m pre l post hl hpre hmatch]
  constructor
  · simp [hcb, runCb, runSends_events]
  · rw [runCb_debug env net pre.length l.callback m r hdbg, hcb]
    simp [Callback.sends]

/-- C6 witness: the asynchronous single-listener configuration of the
test suite. -/
theorem receive_async_defers_completion_witness :
    (let r : Robot :=
      { teamId := "TDEADBEEF", botId := "UNESTORBOT1", debugMode := true,
        toSend := [], toReply := [],
        listeners :=
          [{ pattern := hearPat "message123",
             callback := Callback.asyncCb ["technoweenie"] }] };
     let m : Message :=
      { user := some { id := "1" }, room := some "CDEADBEEF1",
        text := "message123", finished := false };
     Pattern.test (hearPat "message123") "message123" = true ∧
     ((Robot.receive ⟨none, none⟩ (fun _ => 0) r m).2.1 =
        (Event.invoke 0 :: [Event.sendCall "technoweenie"])
          ++ [Event.signalComplete] ++ [Event.onComplete] ∧
      (Robot.receive ⟨none, none⟩ (fun _ => 0) r m).1.toSend =
        [] ++ ["technoweenie"])) := by
  intro r m
  exact ⟨by decide,
    receive_async_defers_completion ⟨none, none⟩ (fun _ => 0) r m []
      { pattern := hearPat "message123",
        callback := Callback.asyncCb ["technoweenie"] }
      [] ["technoweenie"] rfl (by simp) (by decide) rfl rfl⟩

/-- C7: with one respond-registered listener whose addressed pattern does
not match the unaddressed incoming text and one hear-registered listener
whose pattern does match, receive invokes only the hear listener and the
buffered output gains exactly the hear callback strings. -/
theorem receive_hear_when_respond_misses (env : NetEnv)
    (net : HttpRequest → Nat) (r : Robot) (m : Message)
    (p1 : Pattern) (cb1 : Callback) (p2 : Pattern) (cb2 : Callback)
    (hnil : r.listeners = [])
    (h1 : Pattern.test (respondPattern p1 r.botId) m.text = false)
    (h2 : Pattern.test p2 m.text = true)
    (hdbg : r.debugMode = true) :
    invoked (Robot.receive env net
      (Robot.hear (Robot.respond r p1 cb1) p2 cb2) m).2.1 = [1] ∧
    (Robot.receive env net
      (Robot.hear (Robot.respond r p1 cb1) p2 cb2) m).1.toSend =
      r.toSend ++ cb2.sends := by
  have hls : (Robot.hear (Robot.respond r p1 cb1) p2 cb2).listeners =
      [Listener.mk (respondPattern p1 r.botId) cb1] ++
        Listener.mk p2 cb2 :: [] := by
    simp [Robot.hear, Robot.respond, hnil]
  have hpre : ∀ p ∈ [Listener.mk (respondPattern p1 r.botId) cb1],
      Pattern.test p.pattern m.text = false := by
    intro p hp
    simp only [List.mem_singleton] at hp
    rw [hp]
    exact h1
  have hout := receive_first env net
      (Robot.hear (Robot.respond r p1 cb1) p2 cb2) m
      [Listener.mk (respondPattern p1 r.botId) cb1]
      (Listener.mk p2 cb2) [] hls hpre h2
  rw [hout]
  have hdbg2 : (Robot.hear (Robot.respond r p1 cb1) p2 cb2).debugMode = true :=
    hdbg
  constructor
  · rw [invoked_append, runCb_invoked]
    simp [invoked]
  · rw [runCb_debug env net _ _ m _ hdbg2]
    rfl

/-- C7 witness: the mixed respond/hear configuration of the test suite on
the unaddressed text. -/
theorem receive_hear_when_respond_misses_witness :
    (let r : Robot :=
      { teamId := "TDEADBEEF", botId := "UNESTORBOT1", debugMode := true,
        toSend := [], toReply := [], listeners := [] };
     let m : Message :=
      { user := some { id := "1" }, room := some "CDEADBEEF1",
        text := "message123", finished := false };
     (r.listeners = ([] : List Listener) ∧
      Pattern.test (respondPattern (hearPat "message456") r.botId) m.text =
        false ∧
      Pattern.test (hearPat "message123") m.text = true ∧
      r.debugMode = true) ∧
     (invoked (Robot.receive ⟨none, none⟩ (fun _ => 0)
        (Robot.hear (Robot.respond r (hearPat "message456")
          (Callback.sync ["hello 1"])) (hearPat "message123")
          (Callback.sync ["hello 2"])) m).2.1 = [1] ∧
      (Robot.receive ⟨none, none⟩ (fun _ => 0)
        (Robot.hear (Robot.respond r (hearPat "message456")
          (Callback.sync ["hello 1"])) (hearPat "message123")
          (Callback.sync ["hello 2"])) m).1.toSend =
        [] ++ (Callback.sync ["hello 2"]).sends)) := by
  intro r m
  exact ⟨⟨rfl, by decide, by decide, rfl⟩,
    receive_hear_when_respond_misses ⟨none, none⟩ (fun _ => 0) r m
      (hearPat "message456") (Callback.sync ["hello 1"])
      (hearPat "message123") (Callback.sync ["hello 2"])
      rfl (by decide) (by decide) rfl⟩

/-- C8: hear and respond each append exactly one listener (so the count
grows by one, and a registration on an empty robot yields count one), and
no operation of the core removes or reorders listeners: receive and the
delivery primitive leave the listener list unchanged. -/
theorem listeners_append_only (env : NetEnv) (net : HttpRequest → Nat)
    (r : Robot) (m msg : Message) (strings : List String) (reply : Bool)
    (p : Pattern) (cb : Callback) (resp : Response) :
    (Robot.hear r p cb).listeners =
      r.listeners ++ [{ pattern := p, callback := cb }] ∧
    (Robot.respond r p cb).listeners =
      r.listeners ++
        [{ pattern := respondPattern p r.botId, callback := cb }] ∧
    (Robot.hear r p cb).listeners.length = r.listeners.length + 1 ∧
    (Robot.respond r p cb).listeners.length = r.listeners.length + 1 ∧
    ((Robot.receive env net r m).1).listeners = r.listeners ∧
    ((sendCore env net r msg strings reply).2.1).listeners = r.listeners ∧
    (((Response.__send env net resp strings reply).2.1).robot).listeners =
      resp.robot.listeners := by
  refine ⟨by simp [Robot.hear], by simp [Robot.respond], by simp [Robot.hear],
    by simp [Robot.respond], ?_, (sendCore_frame env net r msg strings reply).1,
    ?_⟩
  · exact dispatch_listeners env net m r.listeners 0 r
  · simp only [Response.__send]
    exact (sendCore_frame env net resp.robot resp.message strings reply).1

/-- C9: in debug mode send leaves toReply, the message and the match
unchanged and reply leaves toSend, the message and the match unchanged;
both also preserve the robot identity fields, and each is the shared
delivery primitive applied with its reply flag. -/
theorem debug_frame_effects (env : NetEnv) (net : HttpRequest → Nat)
    (resp : Response) (strings : List String)
    (h : resp.robot.debugMode = true) :
    Response.send env net resp strings =
      Response.__send env net resp strings false ∧
    Response.reply env net resp strings =
      Response.__send env net resp strings true ∧
    ((Response.send env net resp strings).2.1).message = resp.message ∧
    ((Response.send env net resp strings).2.1).mtch = resp.mtch ∧
    ((Response.send env net resp strings).2.1).robot.toReply =
      resp.robot.toReply ∧
    ((Response.send env net resp strings).2.1).robot.teamId =
      resp.robot.teamId ∧
    ((Response.send env net resp strings).2.1).robot.botId =
      resp.robot.botId ∧
    ((Response.send env net resp strings).2.1).robot.debugMode =
      resp.robot.debugMode ∧
    ((Response.send env net resp strings).2.1).robot.listeners =
      resp.robot.listeners ∧
    ((Response.reply env net resp strings).2.1).message = resp.message ∧
    ((Response.reply env net resp strings).2.1).mtch = resp.mtch ∧
    ((Response.reply env net resp strings).2.1).robot.toSend =
      resp.robot.toSend ∧
    ((Response.reply env net resp strings).2.1).robot.teamId =
      resp.robot.teamId ∧
    ((Response.reply env net resp strings).2.1).robot.botId =
      resp.robot.botId ∧
    ((Response.reply env net resp strings).2.1).robot.debugMode =
      resp.robot.debugMode ∧
    ((Response.reply env net resp strings).2.1).robot.listeners =
      resp.robot.listeners := by
  refine ⟨rfl, rfl, ?_, ?_, ?_, ?_, ?_, ?_, ?_, ?_, ?_, ?_, ?_, ?_, ?_, ?_⟩ <;>
    simp [Response.send, Response.reply, Response.__send, sendCore, h]

/-- C9 witness: the frame conditions at a concrete debug-mode response. -/
theorem debug_frame_effects_witness :
    (let resp : Response :=
      { robot := { teamId := "TDEADBEEF", botId := "UNESTORBOT1",
                   debugMode := true, toSend := ["a"], toReply := ["b"],
                   listeners := [] },
        message := { user := some { id := "1" }, room := some "CDEADBEEF1",
                     text := "message123", finished := false },
        mtch := ["message123"] };
     resp.robot.debugMode = true ∧
     (Response.send ⟨none, none⟩ (fun _ => 0) resp ["hello 1"] =
        Response.__send ⟨none, none⟩ (fun _ => 0) resp ["hello 1"] false ∧
      Response.reply ⟨none, none⟩ (fun _ => 0) resp ["hello 1"] =
        Response.__send ⟨none, none⟩ (fun _ => 0) resp ["hello 1"] true ∧
      ((Response.send ⟨none, none⟩ (fun _ => 0) resp ["hello 1"]).2.1).message =
        resp.message ∧
      ((Response.send ⟨none, none⟩ (fun _ => 0) resp ["hello 1"]).2.1).mtch =
        resp.mtch ∧
      ((Response.send ⟨none, none⟩ (fun _ => 0) resp
        ["hello 1"]).2.1).robot.toReply = resp.robot.toReply ∧
      ((Response.send ⟨none, none⟩ (fun _ => 0) resp
        ["hello 1"]).2.1).robot.teamId = resp.robot.teamId ∧
      ((Response.send ⟨none, none⟩ (fun _ => 0) resp
        ["hello 1"]).2.1).robot.botId = resp.robot.botId ∧
      ((Response.send ⟨none, none⟩ (fun _ => 0) resp
        ["hello 1"]).2.1).robot.debugMode = resp.robot.debugMode ∧
      ((Response.send ⟨none, none⟩ (fun _ => 0) resp
        ["hello 1"]).2.1).robot.listeners = resp.robot.listeners ∧
      ((Response.reply ⟨none, none⟩ (fun _ => 0) resp
        ["hello 1"]).2.1).message = resp.message ∧
      ((Response.reply ⟨none, none⟩ (fun _ => 0) resp ["hello 1"]).2.1).mtch =
        resp.mtch ∧
      ((Response.reply ⟨none, none⟩ (fun _ => 0) resp
        ["hello 1"]).2.1).robot.toSend = resp.robot.toSend ∧
      ((Response.reply ⟨none, none⟩ (fun _ => 0) resp
        ["hello 1"]).2.1).robot.teamId = resp.robot.teamId ∧
      ((Response.reply ⟨none, none⟩ (fun _ => 0) resp
        ["hello 1"]).2.1).robot.botId = resp.robot.botId ∧
      ((Response.reply ⟨none, none⟩ (fun _ => 0) resp
        ["hello 1"]).2.1).robot.debugMode = resp.robot.debugMode ∧
      ((Response.reply ⟨none, none⟩ (fun _ => 0) resp
        ["hello 1"]).2.1).robot.listeners = resp.robot.listeners)) := by
  intro resp
  exact ⟨rfl, debug_frame_effects ⟨none, none⟩ (fun _ => 0) resp ["hello 1"] rfl⟩

/-- C10: in debug mode the delivery preconditions are never checked: the
call returns true and issues no request whatever the message user, room
or string count, and the empty string list appends nothing and still
succeeds. -/
theorem debug_skips_preconditions (env : NetEnv) (net : HttpRequest → Nat)
    (resp : Response) (strings : List String) (reply : Bool)
    (h : resp.robot.debugMode = true) :
    (Response.__send env net resp strings reply).1 = true ∧
    (Response.__send env net resp strings reply).2.2 = [] ∧
    Response.__send env net resp [] reply = (true, resp, []) := by
  refine ⟨?_, ?_, ?_⟩
  · cases reply <;> simp [Response.__send, sendCore, h]
  · cases reply <;> simp [Response.__send, sendCore, h]
  · cases reply
    · simp only [Response.__send,
        sendCore_debug_send env net resp.robot resp.message [] h]
      simp
    · simp only [Response.__send,
        sendCore_debug_reply env net resp.robot resp.message [] h]
      simp

/-- C10 witness: a debug-mode response whose message has no user and no
room still succeeds, and the empty string list changes nothing. -/
theorem debug_skips_preconditions_witness :
    (let resp : Response :=
      { robot := { teamId := "TDEADBEEF", botId := "UNESTORBOT1",
                   debugMode := true, toSend := [], toReply := [],
                   listeners := [] },
        message := { user := none, room := none, text := "message123",
                     finished := false },
        mtch := [] };
     resp.robot.debugMode = true ∧
     ((Response.__send ⟨none, none⟩ (fun _ => 0) resp ["hello 1"] false).1 =
        true ∧
      (Response.__send ⟨none, none⟩ (fun _ => 0) resp ["hello 1"] false).2.2 =
        [] ∧
      Response.__send ⟨none, none⟩ (fun _ => 0) resp [] false =
        (true, resp, []))) := by
  intro resp
  exact ⟨rfl,
    debug_skips_preconditions ⟨none, none⟩ (fun _ => 0) resp ["hello 1"]
      false rfl⟩

end Nestor
